import Mathlib

/-!
Shallow embedding of `librpm-rs` (`src/db.rs`): the RPM database handle
(`Db`, `DbBuilder`), the searchable-field enumeration (`Index`) with its
mapping to native tags, and the match-iterator based query surface
(`Index.find`, `find`, `installed_packages`, `Iter`).

Machine-level concerns are made explicit parameters of the embedding:
the filesystem is an existence predicate on paths, and the native call
`rpmReadConfigFiles` is a function from the (possibly null) path argument
to its integer return status.  Errors are `Except` values whose messages
are represented structurally, so that "the message names the path" is a
statement about data rather than about format strings.
-/

namespace LibRpm

/-- A filesystem path, represented by its byte string
(`path.as_ref().as_os_str().as_bytes()` in the source). -/
abbrev RPath := List Nat

/-- The filesystem, abstracted to the existence predicate consulted by
`Path::exists`. -/
abbrev Fs := RPath → Bool

/-- The native call `librpm_sys::rpmReadConfigFiles`, abstracted to the
status code it returns for a given first argument (`none` models the null
pointer passed when no path is configured). -/
abbrev Native := Option RPath → Int

/-- Error kinds from `crate::error`.  That module is not under `src/`; the
spec describes errors surfaced by this component as "a typed Configuration
error carrying a human-readable message", so only the `Config` kind is
modelled. -/
inductive ErrorKind
  | Config
deriving DecidableEq

/-- The error messages produced by `DbBuilder::open`, represented
structurally: each constructor records which format string was used and
which path (if any) it embeds via `path.display()`. -/
inductive ErrMsg
  | noSuchFile (p : RPath)
  | invalidPath (p : RPath)
  | configReadFrom (p : RPath)
  | configReadDefault
deriving DecidableEq

/-- `crate::error::Error`: an error kind plus an optional message
(`Error::new(kind, None)` carries no message). -/
structure Error where
  kind : ErrorKind
  msg : Option ErrMsg
deriving DecidableEq

/-- `CString::new` on a byte string: fails exactly when the bytes contain
an embedded null byte. -/
def cstringNew (bytes : List Nat) : Option (List Nat) :=
  if bytes.contains 0 then none else some bytes

/-- `struct Db {}` — the database handle carries no data. -/
structure Db
deriving DecidableEq

/-- `struct DbBuilder<P: AsRef<Path>> { config: Option<P> }`.  The type
parameter `P` is kept; its `AsRef<Path>` view is passed to the operations
that need it as an explicit function `P → RPath`. -/
structure DbBuilder (P : Type) where
  config : Option P

/-- `impl Default for DbBuilder<P>`: no configured path. -/
def DbBuilder.default (P : Type) : DbBuilder P :=
  { config := none }

/-- `DbBuilder::new`, which delegates to `Default`. -/
def DbBuilder.new (P : Type) : DbBuilder P :=
  DbBuilder.default P

/-- `DbBuilder::with_config`: store a path in the builder. -/
def DbBuilder.with_config {P : Type} (b : DbBuilder P) (c : P) : DbBuilder P :=
  { b with config := some c }

/-- The `let rc = match self.config { ... }` step of `DbBuilder::open`:
either an early-return error (`fail!` on a missing path, the `?` on
`CString::new` failure) or the status returned by the native call, which
receives the configured path, or a null pointer when none is configured. -/
def DbBuilder.readConfigStep {P : Type} (b : DbBuilder P) (asRef : P → RPath)
    (fs : Fs) (native : Native) : Except Error Int :=
  match b.config with
  | some path =>
      if !(fs (asRef path)) then
        Except.error ⟨ErrorKind.Config, some (ErrMsg.noSuchFile (asRef path))⟩
      else
        match cstringNew (asRef path) with
        | none => Except.error ⟨ErrorKind.Config, some (ErrMsg.invalidPath (asRef path))⟩
        | some cstr => Except.ok (native (some cstr))
  | none => Except.ok (native none)

/-- `DbBuilder::open`.  Note the translation is faithful to the source as
written: after the `rc != 0` check the function ends with
`Err(Error::new(ErrorKind::Config, None))`, so the `rc == 0` case also
produces an error. -/
def DbBuilder.open' {P : Type} (b : DbBuilder P) (asRef : P → RPath)
    (fs : Fs) (native : Native) : Except Error Db :=
  match b.readConfigStep asRef fs native with
  | Except.error e => Except.error e
  | Except.ok rc =>
      if rc ≠ 0 then
        match b.config with
        | some path =>
            Except.error ⟨ErrorKind.Config, some (ErrMsg.configReadFrom (asRef path))⟩
        | none => Except.error ⟨ErrorKind.Config, some ErrMsg.configReadDefault⟩
      else
        Except.error ⟨ErrorKind.Config, none⟩

/-- `Db::open::<P>()`: the body is `DbBuilder::<&Path>::new().open()` — the
type parameter `P` (and its `AsRef<Path>` view) never occurs in it. -/
def Db.open' (P : Type) (_asRef : P → RPath) (fs : Fs) (native : Native) :
    Except Error Db :=
  (DbBuilder.new RPath).open' id fs native

/-- `Db::open_with::<P>()`: returns `DbBuilder::default()`.  It takes no
path argument. -/
def Db.open_with (P : Type) : DbBuilder P :=
  DbBuilder.default P

/-- The database-opening operation exactly as the spec sentence for
`open_with(config_path)` words it: "opens using an explicit path ... the
supplied path is stored as the configuration".  Used only to compare the
spec's reading of `open_with` with the source's `Db.open_with`. -/
def DbOpenWithSpec (P : Type) (config_path : P) : DbBuilder P :=
  { config := some config_path }

/-- Modelled from the spec: `crate::internal::tag::Tag` is not under
`src/`.  The spec calls the native tag domain "a closed set of field
identifiers consumed by Tag Mapping"; the five identifiers the mapping in
`src/db.rs` uses are modelled as the constructors of a closed
enumeration. -/
inductive Tag
  | NAME
  | VERSION
  | LICENSE
  | SUMMARY
  | DESCRIPTION
deriving DecidableEq, Fintype

/-- `enum Index`: the searchable fields of the package headers. -/
inductive Index
  | Name
  | Version
  | License
  | Summary
  | Description
deriving DecidableEq, Fintype

/-- `impl Into<Tag> for Index`: the closed match in `src/db.rs`. -/
def Index.into : Index → Tag
  | Index.Name => Tag.NAME
  | Index.Version => Tag.VERSION
  | Index.License => Tag.LICENSE
  | Index.Summary => Tag.SUMMARY
  | Index.Description => Tag.DESCRIPTION

/-- Modelled from the spec: the raw record ("header") yielded by the
native cursor, carrying the fields the Package Projection reads.
`crate::package::Package` and the header type are not under `src/`. -/
structure Header where
  name : String
  version : String
  license : String
  summary : String
  description : String
deriving DecidableEq

/-- Modelled from the spec: the Package Descriptor, "an owned, structured
snapshot of one record's fields (name, version, license, summary,
description)". -/
structure Package where
  name : String
  version : String
  license : String
  summary : String
  description : String
deriving DecidableEq

/-- Modelled from the spec: the Package Projection, "convert one raw
record into a Package Descriptor", pure and total at this boundary. -/
def Header.to_package (h : Header) : Package :=
  { name := h.name, version := h.version, license := h.license,
    summary := h.summary, description := h.description }

/-- Modelled from the spec: the field of a record that a native tag
scopes a cursor to ("a native field identifier used to scope a cursor to
a particular searchable attribute"). -/
def Header.field (h : Header) : Tag → String
  | Tag.NAME => h.name
  | Tag.VERSION => h.version
  | Tag.LICENSE => h.license
  | Tag.SUMMARY => h.summary
  | Tag.DESCRIPTION => h.description

/-- The RPM database contents: the records the process-wide handle can
see, in their iteration order. -/
abbrev Database := List Header

/-- Modelled from the spec: `crate::internal::iterator::MatchIterator` is
not under `src/`.  Its observable state is the sequence of records the
cursor has not yet yielded. -/
structure MatchIterator where
  remaining : List Header
deriving DecidableEq

/-- Modelled from the spec: `MatchIterator::new(tag, optional_key)`.
With a key, "the cursor is restricted to exact matches of that key on
that field"; with no key, "the cursor scans all records". -/
def MatchIterator.new (db : Database) (tag : Tag) (key : Option String) :
    MatchIterator :=
  match key with
  | none => { remaining := db }
  | some k => { remaining := db.filter (fun h => h.field tag == k) }

/-- Whether a search key contains a byte the native matcher rejects: the
spec and the doc comment on `find` in `src/db.rs` name the embedded null
byte. -/
def keyRejected (key : String) : Bool :=
  key.toList.contains (Char.ofNat 0)

/-- Modelled from the spec: whether `MatchIterator::new(tag, key)` "fails
loudly" (panics) instead of returning.  Per the spec this happens exactly
when the key is present and contains bytes the native matcher rejects. -/
def MatchIterator.newPanics (key : Option String) : Bool :=
  match key with
  | none => false
  | some k => keyRejected k

/-- Modelled from the spec: `MatchIterator`'s `advance()`, returning "an
owned raw record or an exhausted signal" plus the successor cursor
state. -/
def MatchIterator.next (m : MatchIterator) : Option Header × MatchIterator :=
  match m.remaining with
  | [] => (none, m)
  | h :: t => (some h, { remaining := t })

/-- `pub struct Iter(MatchIterator)`. -/
structure Iter where
  mi : MatchIterator
deriving DecidableEq

/-- `impl Iterator for Iter`: `self.0.next().map(|h| h.to_package())`,
with the mutation of `self` made explicit as the returned successor. -/
def Iter.next (it : Iter) : Option Package × Iter :=
  let r := MatchIterator.next it.mi
  (r.fst.map Header.to_package, { mi := r.snd })

/-- `Index::find`: `Iter(MatchIterator::new(self.into(), Some(key)))`.
The process-wide database contents are an explicit argument. -/
def Index.find (i : Index) (db : Database) (key : String) : Iter :=
  { mi := MatchIterator.new db i.into (some key) }

/-- Whether `Index::find(key)` panics: the panic of the underlying
`MatchIterator::new` with the key present. -/
def Index.findPanics (key : String) : Bool :=
  MatchIterator.newPanics (some key)

/-- `pub fn installed_packages()`: `Iter(MatchIterator::new(Tag::NAME, None))`. -/
def installed_packages (db : Database) : Iter :=
  { mi := MatchIterator.new db Tag.NAME none }

/-- `pub fn find(index, key)`: the free function delegates to the method. -/
def find (db : Database) (index : Index) (key : String) : Iter :=
  index.find db key

/-- Whether the free function `find` panics: it delegates to
`Index::find`, so its panic is the method's panic. -/
def findPanics (key : String) : Bool :=
  Index.findPanics key

/-- Fully draining an `Iter`: the list of packages produced by repeated
calls to `next` until the exhausted signal. -/
def Iter.drain (it : Iter) : List Package :=
  match hm : it.mi.remaining with
  | [] => []
  | h :: t => Header.to_package h :: Iter.drain { mi := { remaining := t } }
termination_by it.mi.remaining.length
decreasing_by simp [hm]

/-- C1: evaluating `DbBuilder::open` as reached by `Db::open` when the
native read/initialize step returns status 0: the result is still a
Configuration error carrying no message, not a successful `Db` handle.
The function's last line is unconditionally
`Err(Error::new(ErrorKind::Config, None))`, which the crate's own
`db_opens` test (`Db::open::<&Path>().unwrap()`) contradicts. -/
theorem C1_open_rc_zero_still_errors :
    ∀ fs : Fs,
      Db.open' RPath id fs (fun _ => 0) =
        Except.error { kind := ErrorKind.Config, msg := none } :=
  fun _ => rfl

/-- C2 counterexample: `Db::open_with` takes no path argument and returns
the default builder, whose configuration is absent; it therefore differs
from the builder the spec sentence "the supplied path is stored as the
configuration" describes, exhibited at the concrete path `[104]`. -/
theorem C2_open_with_counterexample :
    (Db.open_with RPath).config = none ∧
    Db.open_with RPath ≠ DbOpenWithSpec RPath [104] := by
  refine ⟨rfl, fun h => ?_⟩
  have hc : (Db.open_with RPath).config = (DbOpenWithSpec RPath [104]).config := by
    rw [h]
  simp [Db.open_with, DbOpenWithSpec, DbBuilder.default] at hc

/-- C2 amended: `Db::open_with` returns a default builder with no
configured path; a path is supplied separately via `with_config`, and
when the builder is finalized with a stored path that exists and has no
embedded null byte, that path is the argument handed to the native
initialization call. -/
theorem C2_open_with_builder_path (P : Type) (asRef : P → RPath) (fs : Fs)
    (native : Native) (p : P) (hex : fs (asRef p) = true)
    (hnul : (asRef p).contains 0 = false) :
    (Db.open_with P).config = none ∧
    ((Db.open_with P).with_config p).config = some p ∧
    ((Db.open_with P).with_config p).open' asRef fs native =
      (if native (some (asRef p)) ≠ 0
       then Except.error { kind := ErrorKind.Config,
                           msg := some (ErrMsg.configReadFrom (asRef p)) }
       else Except.error { kind := ErrorKind.Config, msg := none }) := by
  refine ⟨rfl, rfl, ?_⟩
  have hmem : ¬(0 ∈ asRef p) := by simpa using hnul
  simp [Db.open_with, DbBuilder.default, DbBuilder.with_config, DbBuilder.open',
    DbBuilder.readConfigStep, cstringNew, hex, hmem]

/-- Witness for C2 amended, at the concrete path `[104]` on a filesystem
where every path exists and a native call that always returns status 1. -/
theorem C2_open_with_builder_path_witness :
    (Db.open_with RPath).config = none ∧
    ((Db.open_with RPath).with_config [104]).config = some [104] ∧
    ((Db.open_with RPath).with_config [104]).open' id (fun _ => true) (fun _ => 1) =
      (if (1 : Int) ≠ 0
       then Except.error { kind := ErrorKind.Config,
                           msg := some (ErrMsg.configReadFrom [104]) }
       else Except.error { kind := ErrorKind.Config, msg := none }) :=
  C2_open_with_builder_path RPath id (fun _ => true) (fun _ => 1) [104] rfl (by decide)

/-- C3: finalizing a builder whose configured path does not exist on the
filesystem fails with a Configuration error whose message names that
path, and the result does not depend on the native call — the native
initialization is never reached. -/
theorem C3_nonexistent_path_config_error (P : Type) (asRef : P → RPath)
    (fs : Fs) (native native' : Native) (p : P) (h : fs (asRef p) = false) :
    DbBuilder.open' { config := some p } asRef fs native =
      Except.error { kind := ErrorKind.Config,
                     msg := some (ErrMsg.noSuchFile (asRef p)) } ∧
    DbBuilder.open' { config := some p } asRef fs native =
      DbBuilder.open' { config := some p } asRef fs native' := by
  constructor <;> simp [DbBuilder.open', DbBuilder.readConfigStep, h]

/-- Witness for C3 at the concrete path `[97]` on the empty filesystem,
with two natives that disagree everywhere. -/
theorem C3_nonexistent_path_config_error_witness :
    DbBuilder.open' { config := some [97] } id (fun _ => false) (fun _ => 0) =
      Except.error { kind := ErrorKind.Config,
                     msg := some (ErrMsg.noSuchFile [97]) } ∧
    DbBuilder.open' { config := some [97] } id (fun _ => false) (fun _ => 0) =
      DbBuilder.open' { config := some [97] } id (fun _ => false) (fun _ => 1) :=
  C3_nonexistent_path_config_error RPath id (fun _ => false) (fun _ => 0)
    (fun _ => 1) [97] rfl

/-- C4: finalizing a builder whose configured path contains an embedded
null byte returns a Configuration error whose message names that path
(the embedding is total, so no panic is possible): when the path exists
the failed `CString::new` yields the invalid-path message; when it does
not exist the existence check fires first and yields the no-such-file
message. -/
theorem C4_nul_path_config_error (P : Type) (asRef : P → RPath) (fs : Fs)
    (native : Native) (p : P) (hnul : (asRef p).contains 0 = true) :
    ∃ m : ErrMsg,
      DbBuilder.open' { config := some p } asRef fs native =
        Except.error { kind := ErrorKind.Config, msg := some m } ∧
      (fs (asRef p) = true → m = ErrMsg.invalidPath (asRef p)) ∧
      (fs (asRef p) = false → m = ErrMsg.noSuchFile (asRef p)) := by
  cases hfs : fs (asRef p) with
  | false =>
      refine ⟨ErrMsg.noSuchFile (asRef p), ?_, ?_, fun _ => rfl⟩
      · simp [DbBuilder.open', DbBuilder.readConfigStep, hfs]
      · intro ht
        exact absurd ht (by simp [hfs])
  | true =>
      refine ⟨ErrMsg.invalidPath (asRef p), ?_, fun _ => rfl, ?_⟩
      · have hmem : 0 ∈ asRef p := by simpa using hnul
        simp [DbBuilder.open', DbBuilder.readConfigStep, cstringNew, hfs, hmem]
      · intro hf
        exact absurd hf (by simp [hfs])

/-- Witness for C4 at the concrete path `[0]` (a single null byte) on a
filesystem where every path exists. -/
theorem C4_nul_path_config_error_witness :
    ∃ m : ErrMsg,
      DbBuilder.open' { config := some [0] } id (fun _ => true) (fun _ => 0) =
        Except.error { kind := ErrorKind.Config, msg := some m } ∧
      ((fun _ => true : Fs) [0] = true → m = ErrMsg.invalidPath [0]) ∧
      ((fun _ => true : Fs) [0] = false → m = ErrMsg.noSuchFile [0]) :=
  C4_nul_path_config_error RPath id (fun _ => true) (fun _ => 0) [0] (by decide)

/-- C5: the mapping from `Index` to native `Tag` is total — each of the
five variants is sent to its documented tag — and injective: distinct
variants are sent to distinct tags. -/
theorem C5_tag_mapping_total_injective :
    (Index.into Index.Name = Tag.NAME ∧
     Index.into Index.Version = Tag.VERSION ∧
     Index.into Index.License = Tag.LICENSE ∧
     Index.into Index.Summary = Tag.SUMMARY ∧
     Index.into Index.Description = Tag.DESCRIPTION) ∧
    ∀ i j : Index, Index.into i = Index.into j → i = j :=
  ⟨⟨rfl, rfl, rfl, rfl, rfl⟩, by decide⟩

/-- Witness for C5, applying injectivity at the concrete pair
`(Name, Name)`. -/
theorem C5_tag_mapping_witness :
    Index.into Index.Name = Index.into Index.Name ∧ Index.Name = Index.Name :=
  ⟨rfl, C5_tag_mapping_total_injective.2 Index.Name Index.Name rfl⟩

/-- C6: the free function `find(index, key)` and the method
`Index::find(key)` produce identical iterators on every database, index
and key, and their panic conditions coincide. -/
theorem C6_find_free_eq_method :
    ∀ (db : Database) (i : Index) (key : String),
      find db i key = Index.find i db key ∧
      findPanics key = Index.findPanics key :=
  fun _ _ _ => ⟨rfl, rfl⟩

/-- Unfolding `Iter.drain` on an explicit record list: draining yields
the projection of every record, in order. -/
theorem drain_mk_remaining (l : List Header) :
    Iter.drain { mi := { remaining := l } } = l.map Header.to_package := by
  induction l with
  | nil => simp [Iter.drain]
  | cons h t ih => rw [Iter.drain]; simp only [List.map]; rw [ih]


/-- C7: `installed_packages()` is the iterator built from a match
iterator scoped to the NAME tag with an absent key, and draining it
yields the projection of every record in the database. -/
theorem C7_installed_packages_covers (db : Database) :
    installed_packages db = { mi := MatchIterator.new db Tag.NAME none } ∧
    (installed_packages db).drain = db.map Header.to_package :=
  ⟨rfl, drain_mk_remaining db⟩

/-- C8: exhaustion is terminal — if a call to `Iter::next` returns the
exhausted signal together with the successor state, then calling `next`
on that state again returns the exhausted signal and the same state (so
every later call does too, and no error or stale record is ever
produced). -/
theorem C8_exhaustion_terminal (it it' : Iter)
    (h : Iter.next it = (none, it')) : Iter.next it' = (none, it') := by
  rcases it with ⟨⟨l⟩⟩
  cases l with
  | nil =>
      simp [Iter.next, MatchIterator.next] at h
      rw [← h]
      rfl
  | cons hd tl =>
      simp [Iter.next, MatchIterator.next] at h

/-- Witness for C8 at the concrete exhausted iterator with no remaining
records. -/
theorem C8_exhaustion_terminal_witness :
    Iter.next { mi := { remaining := [] } } =
      (none, { mi := { remaining := [] } }) :=
  C8_exhaustion_terminal { mi := { remaining := [] } }
    { mi := { remaining := [] } } rfl

/-- C9: a search key containing a byte the native matcher rejects (an
embedded null byte) makes `Index::find` — and hence the free `find`,
which delegates to it — fail loudly: the panic predicate holds, and no
recoverable error value is involved (the query surface has no error
channel at all). -/
theorem C9_nul_key_panics (key : String) (h : keyRejected key = true) :
    Index.findPanics key = true ∧ findPanics key = true := by
  exact ⟨by simpa [Index.findPanics, MatchIterator.newPanics] using h,
    by simpa [findPanics, Index.findPanics, MatchIterator.newPanics] using h⟩

/-- Witness for C9 at the concrete key consisting of one null byte. -/
theorem C9_nul_key_panics_witness :
    Index.findPanics (String.mk [Char.ofNat 0]) = true ∧
    findPanics (String.mk [Char.ofNat 0]) = true :=
  C9_nul_key_panics (String.mk [Char.ofNat 0]) (by decide)

/-- C10: `Db::open::<P>()` ignores its type parameter: any two parameter
choices give the same result, the call equals finalizing a
default-constructed builder with no configured path, and the native
initialization receives the null path — its status at the null argument
alone decides the outcome. -/
theorem C10_open_ignores_type_param (P Q : Type) (asRefP : P → RPath)
    (asRefQ : Q → RPath) (fs : Fs) (native : Native) :
    Db.open' P asRefP fs native = Db.open' Q asRefQ fs native ∧
    Db.open' P asRefP fs native = (DbBuilder.default RPath).open' id fs native ∧
    Db.open' P asRefP fs native =
      (if native none ≠ 0
       then Except.error { kind := ErrorKind.Config,
                           msg := some ErrMsg.configReadDefault }
       else Except.error { kind := ErrorKind.Config, msg := none }) :=
  ⟨rfl, rfl, rfl⟩

end LibRpm
